import Mathlib

/-!
Shallow embedding of the Bethe-Bloch stopping-power program
(src/main.rs, src/aux/bethe_bloch/bb.rs) over the real numbers.

The four curve functions `bethe_bloch_no_corrections`,
`bethe_bloch_density_corrections`, `bethe_bloch_layer_corrections` and
`bethe_bloch_all_corrections` are translated from
src/aux/bethe_bloch/bb.rs; f64 arithmetic is modelled by exact real
arithmetic, `Vec<f64>` by `List ℝ`, the `HashMap<String, f64>` by a
lookup function `String → Option ℝ`, and the `.unwrap()` calls by the
`Option` monad.  File and console output are not modelled (they do not
affect the numeric results).
-/

noncomputable section

namespace BetheBloch

/-! ### Physical constants (bb.rs lines 8-17, duplicated in main.rs lines 15-24) -/

def ELECTRON_CHARGE : ℝ := 1.602176634e-19

def ELECTRON_MASS_0 : ℝ := 9.10938356e-31

def SPEED_OF_LIGHT : ℝ := 299792458.0

def WATER_ATOMIC_NUMBER : ℝ := 9.0

def PROTON_ENERGY_MeV_I : ℝ := 1.0

def PROTON_MASS_0 : ℝ := 1.6726219e-27

def WATER_EXCITATION_ENERGY : ℝ := 74.6

def ELECTRON_PER_VOLUME_H20 : ℝ := 3.3429

def COULOMB_CONST : ℝ := 8.99e9

def Z_PROTON : ℝ := 1.0

/-! ### Derived constants (bb.rs lines 22-27, identically recomputed in every
curve function) -/

def proton_mass : ℝ := PROTON_MASS_0 * SPEED_OF_LIGHT * SPEED_OF_LIGHT / ELECTRON_CHARGE

def electron_mass : ℝ := ELECTRON_MASS_0 * SPEED_OF_LIGHT * SPEED_OF_LIGHT

def electron_mass_eV : ℝ := ELECTRON_MASS_0 * SPEED_OF_LIGHT * SPEED_OF_LIGHT / ELECTRON_CHARGE

def const_general : ℝ :=
  4 * Real.pi * ELECTRON_CHARGE ^ 4 * COULOMB_CONST ^ 2 / (electron_mass * ELECTRON_CHARGE * 1.0e8)

/-- The ionization constant `I` (bb.rs lines 30-34, parameterized over the
atomic number `Z` and the projectile charge `z_proj` that appear in it). -/
def ionizationConstantOf (Z z_proj : ℝ) : ℝ :=
  if Z < 13 then (12 * Z + 7) / 1e6
  else (9.76 * z_proj + 58.8 * Z ^ (-0.19 : ℝ)) / 1e6

/-- The value of `I` actually computed by the source functions. -/
def I_code : ℝ := ionizationConstantOf WATER_ATOMIC_NUMBER Z_PROTON

/-! ### Kinematics -/

/-- `beta = sqrt(E*(E + 2*m)) / (E + m)` (bb.rs lines 48-49). -/
def betaOf (energy_eV M : ℝ) : ℝ :=
  Real.sqrt (energy_eV * (energy_eV + 2 * M)) / (energy_eV + M)

/-- `bg = beta * (1.0 / (1.0 - beta*beta).sqrt())` (bb.rs line 95). -/
def betaGamma (beta : ℝ) : ℝ := beta * (1 / Real.sqrt (1 - beta * beta))

/-! ### Density-effect correction (bb.rs lines 98-104; the spec adopts this
copy, where `c_param` is added, as the reference; the near-duplicate in
main.rs lines 137-143 subtracts `c_param` instead). -/

/-- Correction parameters `{a, x0, x1, m_param, c_param}` retrieved from the
`variables` map (bb.rs lines 71-75). -/
structure DeltaParams where
  a : ℝ
  x0 : ℝ
  x1 : ℝ
  m_param : ℝ
  c_param : ℝ

/-- Default parameter values (main.rs lines 27-31). -/
def defaultParams : DeltaParams :=
  { a := 0.09116, x0 := 0.24, x1 := 2.8004, m_param := 3.4773, c_param := 3.5017 }

/-- Branch taken when `x >= x1` (bb.rs line 99):
`2.0 * 10.0_f64.log10() * x + c_param`.  Note that Rust's
`10.0_f64.log10()` is the base-10 logarithm of 10. -/
def densityCorrectionTopBranch (p : DeltaParams) (x : ℝ) : ℝ :=
  2 * Real.logb 10 10 * x + p.c_param

/-- Branch taken when `x0 <= x < x1` (bb.rs line 101):
`2.0 * 10.0_f64.log10() * x + c_param + a * f64::powf(x1 - x, m_param)`. -/
def densityCorrectionMidBranch (p : DeltaParams) (x : ℝ) : ℝ :=
  2 * Real.logb 10 10 * x + p.c_param + p.a * (p.x1 - x) ^ p.m_param

/-- The `delta` piecewise expression of bb.rs lines 98-104, as a function of
`x = log10(betaGamma)`. -/
def densityCorrection (p : DeltaParams) (x : ℝ) : ℝ :=
  if p.x1 ≤ x then densityCorrectionTopBranch p x
  else if p.x0 ≤ x then densityCorrectionMidBranch p x
  else 0

/-! ### Shell (layer) correction (bb.rs lines 152-153) -/

def shellCorrection (Ival bg : ℝ) : ℝ :=
  (0.422377 * bg ^ (-2 : ℤ) + 0.0304043 * bg ^ (-4 : ℤ) - 0.00038106 * bg ^ (-6 : ℤ))
      * (10 : ℝ) ^ (-6 : ℤ) * (Ival ^ 2 * (10 : ℝ) ^ (-6 : ℤ))
    + (3.850190 * bg ^ (-2 : ℤ) - 0.1667989 * bg ^ (-4 : ℤ) + 0.00157955 * bg ^ (-6 : ℤ))
      * (10 : ℝ) ^ (-9 : ℤ) * (Ival ^ 3 * (10 : ℝ) ^ (-6 : ℤ))

/-! ### Per-sample stopping-power formulas -/

/-- Prefactor of the no-corrections formula (bb.rs line 52):
`const_general * Z_PROTON.powi(2) * ELECTRON_PER_VOLUME_H20 / (beta * beta)`. -/
def prefactor (energy_eV : ℝ) : ℝ :=
  const_general * Z_PROTON ^ 2 * ELECTRON_PER_VOLUME_H20
    / (betaOf energy_eV proton_mass * betaOf energy_eV proton_mass)

/-- Bracketed term of the no-corrections formula (bb.rs lines 53-55). -/
def bracketNoCorrections (energy_eV : ℝ) : ℝ :=
  Real.log (2 * electron_mass_eV * betaOf energy_eV proton_mass * betaOf energy_eV proton_mass
      / WATER_EXCITATION_ENERGY)
    - Real.log (1 - betaOf energy_eV proton_mass * betaOf energy_eV proton_mass)
    - betaOf energy_eV proton_mass * betaOf energy_eV proton_mass

/-- `de_dx` of `bethe_bloch_no_corrections` (bb.rs lines 52-55). -/
def deDx_noCorrections (energy_eV : ℝ) : ℝ :=
  prefactor energy_eV * bracketNoCorrections energy_eV

/-- `de_dx` of `bethe_bloch_density_corrections` (bb.rs lines 92-108). -/
def deDx_densityCorrections (p : DeltaParams) (energy_eV : ℝ) : ℝ :=
  let beta := betaOf energy_eV proton_mass
  let bg := betaGamma beta
  let x := Real.logb 10 bg
  let delta := densityCorrection p x
  const_general * Z_PROTON ^ 2 * ELECTRON_PER_VOLUME_H20 / beta ^ 2 *
    (Real.log (2 * electron_mass_eV * beta ^ 2 / WATER_EXCITATION_ENERGY)
      - Real.log (1 - beta ^ 2) - beta ^ 2 - delta)

/-- `de_dx` of `bethe_bloch_layer_corrections` (bb.rs lines 146-157). -/
def deDx_layerCorrections (Ival energy_eV : ℝ) : ℝ :=
  let beta := betaOf energy_eV proton_mass
  let bg := betaGamma beta
  let sc := shellCorrection Ival bg
  const_general * Z_PROTON ^ 2 * ELECTRON_PER_VOLUME_H20 / beta ^ 2 *
    (Real.log (2 * electron_mass_eV * beta ^ 2 / WATER_EXCITATION_ENERGY)
      - Real.log (1 - beta ^ 2) - beta ^ 2 - 2 * (sc / WATER_ATOMIC_NUMBER))

/-- `de_dx` of `bethe_bloch_all_corrections` (bb.rs lines 202-223). -/
def deDx_allCorrections (Ival : ℝ) (p : DeltaParams) (energy_eV : ℝ) : ℝ :=
  let beta := betaOf energy_eV proton_mass
  let bg := betaGamma beta
  let x := Real.logb 10 bg
  let delta := densityCorrection p x
  let sc := shellCorrection Ival bg
  const_general * Z_PROTON ^ 2 * ELECTRON_PER_VOLUME_H20 / beta ^ 2 *
    (Real.log (2 * electron_mass_eV * beta ^ 2 / WATER_EXCITATION_ENERGY)
      - Real.log (1 - beta ^ 2) - beta ^ 2 - delta - 2 * (sc / WATER_ATOMIC_NUMBER))

/-! ### The energy sweep -/

/-- `energy_eV = PROTON_ENERGY_MeV_I * ((i as f64 + 1.0) * 10.0) * 1e6`
(bb.rs line 44). -/
def energy_eV_at (i : ℕ) : ℝ := PROTON_ENERGY_MeV_I * (((i : ℝ) + 1) * 10) * 1e6

/-- `energy_MeV = energy_eV / 1e6` (bb.rs line 57). -/
def energy_MeV_at (i : ℕ) : ℝ := energy_eV_at i / 1e6

/-- The `for i in 0..n_points` loop body: push one energy and one stopping
power onto the two vectors, for `i = 0, 1, ..., n-1` in order. -/
def sweepLoop (f : ℕ → ℝ × ℝ) (n : ℕ) (es ss : List ℝ) : List ℝ × List ℝ :=
  (List.range n).foldl (fun st i => (st.1 ++ [(f i).1], st.2 ++ [(f i).2])) (es, ss)

/-! ### The four curve functions of bb.rs -/

/-- `bethe_bloch_no_corrections` (bb.rs lines 19-67).  The function also binds
`let I = ...` (`I_code`), which is unused in the computation. -/
def bethe_bloch_no_corrections (n : ℕ) (es ss : List ℝ) : List ℝ × List ℝ :=
  sweepLoop (fun i => (energy_MeV_at i, deDx_noCorrections (energy_eV_at i))) n es ss

/-- `bethe_bloch_layer_corrections` (bb.rs lines 121-168). -/
def bethe_bloch_layer_corrections (n : ℕ) (es ss : List ℝ) : List ℝ × List ℝ :=
  sweepLoop (fun i => (energy_MeV_at i, deDx_layerCorrections I_code (energy_eV_at i))) n es ss

def key_a : String := "a"

def key_x0 : String := "x0"

def key_x1 : String := "x1"

def key_m_param : String := "m_param"

def key_c_param : String := "c_param"

/-- The five `variables.get(...).copied().unwrap()` calls of bb.rs lines 71-75
(and 172-176), in source order; `unwrap` of a missing key is a panic, modelled
by `none`. -/
def getParams (vars : String → Option ℝ) : Option DeltaParams :=
  (vars key_a).bind fun a =>
  (vars key_x0).bind fun x0 =>
  (vars key_x1).bind fun x1 =>
  (vars key_m_param).bind fun m_param =>
  (vars key_c_param).map fun c_param =>
  ⟨a, x0, x1, m_param, c_param⟩

/-- `bethe_bloch_density_corrections` (bb.rs lines 69-119); `none` models the
panic on a missing map key, which happens before any point is produced. -/
def bethe_bloch_density_corrections (n : ℕ) (es ss : List ℝ)
    (vars : String → Option ℝ) : Option (List ℝ × List ℝ) :=
  (getParams vars).map fun p =>
    sweepLoop (fun i => (energy_MeV_at i, deDx_densityCorrections p (energy_eV_at i))) n es ss

/-- `bethe_bloch_all_corrections` (bb.rs lines 170-234). -/
def bethe_bloch_all_corrections (n : ℕ) (es ss : List ℝ)
    (vars : String → Option ℝ) : Option (List ℝ × List ℝ) :=
  (getParams vars).map fun p =>
    sweepLoop (fun i => (energy_MeV_at i, deDx_allCorrections I_code p (energy_eV_at i))) n es ss

/-! ### Variant dispatcher (spec section 4: `stoppingPower(E, variant, params)`;
each branch is the corresponding per-sample formula of bb.rs, with the
ionization constant `I` passed in where the source binds it) -/

inductive Variant
  | NoCorrection
  | DensityCorrection
  | ShellCorrection
  | AllCorrections

def stoppingPower (Ival : ℝ) (v : Variant) (p : DeltaParams) (energy_eV : ℝ) : ℝ :=
  match v with
  | Variant.NoCorrection => deDx_noCorrections energy_eV
  | Variant.DensityCorrection => deDx_densityCorrections p energy_eV
  | Variant.ShellCorrection => deDx_layerCorrections Ival energy_eV
  | Variant.AllCorrections => deDx_allCorrections Ival p energy_eV

/-! ### Helper lemmas -/

lemma one_lt_log_ten : 1 < Real.log 10 := by
  rw [Real.lt_log_iff_exp_lt (by norm_num : (0:ℝ) < 10)]
  calc Real.exp 1 < 2.7182818286 := Real.exp_one_lt_d9
    _ < 10 := by norm_num

lemma betaOf_nonneg (E M : ℝ) (hM : 0 < M) (hE : 0 ≤ E) : 0 ≤ betaOf E M :=
  div_nonneg (Real.sqrt_nonneg _) (by linarith)

lemma betaOf_lt_one (E M : ℝ) (hM : 0 < M) (hE : 0 ≤ E) : betaOf E M < 1 := by
  rw [betaOf, div_lt_one (by linarith)]
  rw [Real.sqrt_lt' (by linarith)]
  nlinarith

lemma proton_mass_pos : 0 < proton_mass := by
  rw [proton_mass, PROTON_MASS_0, SPEED_OF_LIGHT, ELECTRON_CHARGE]
  norm_num

lemma energy_eV_at_nonneg (i : ℕ) : 0 ≤ energy_eV_at i := by
  rw [energy_eV_at, PROTON_ENERGY_MeV_I]
  positivity

/-! ### Claim theorems -/

/-- Claim C3: `betaOf(E, M) = sqrt(E*(E+2M))/(E+M)` satisfies: for every
kinetic energy `E ≥ 0` with rest mass `M > 0` the result lies in `[0, 1)`;
at `E = 0` the result is exactly `0` (no division-by-zero singularity); and
at every energy of the swept range (indices `i < 1000`, i.e. up to 10000 MeV)
the value stays strictly below 1. -/
theorem betaOf_range (M : ℝ) (hM : 0 < M) :
    (∀ E, 0 ≤ E → 0 ≤ betaOf E M ∧ betaOf E M < 1) ∧
    betaOf 0 M = 0 ∧
    (∀ i : ℕ, i < 1000 → betaOf (energy_eV_at i) proton_mass < 1) := by
  refine ⟨fun E hE => ⟨betaOf_nonneg E M hM hE, betaOf_lt_one E M hM hE⟩, ?_, fun i _ =>
    betaOf_lt_one _ _ proton_mass_pos (energy_eV_at_nonneg i)⟩
  rw [betaOf]
  simp

/-- Witness for C3, at `M = 1`, `E = 0` and sweep index `i = 0`. -/
theorem betaOf_range_witness :
    (0:ℝ) < 1 ∧ (0 ≤ betaOf 0 1 ∧ betaOf 0 1 < 1) ∧ betaOf 0 1 = 0 ∧
      betaOf (energy_eV_at 0) proton_mass < 1 :=
  ⟨by norm_num, (betaOf_range 1 (by norm_num)).1 0 le_rfl,
   (betaOf_range 1 (by norm_num)).2.1,
   (betaOf_range 1 (by norm_num)).2.2 0 (by norm_num)⟩

/-- Claim C6: the ionization constant at the water atomic number `Z = 9`
takes the `Z < 13` branch and equals `(12*9+7)/1e6 = 0.000115`; the other
branch is not taken, so the result does not depend on `z_proj`. -/
theorem ionizationConstant_water :
    ionizationConstantOf 9 Z_PROTON = (12 * 9 + 7) / 1e6 ∧
    ionizationConstantOf 9 Z_PROTON = 0.000115 ∧
    (∀ zp : ℝ, ionizationConstantOf 9 zp = 0.000115) ∧
    I_code = 0.000115 := by
  have h : ∀ zp : ℝ, ionizationConstantOf 9 zp = 0.000115 := by
    intro zp
    rw [ionizationConstantOf, if_pos (by norm_num : (9:ℝ) < 13)]
    norm_num
  refine ⟨?_, h Z_PROTON, h, ?_⟩
  · rw [ionizationConstantOf, if_pos (by norm_num : (9:ℝ) < 13)]
  · rw [I_code, WATER_ATOMIC_NUMBER, ionizationConstantOf,
      if_pos (by norm_num : (9.0:ℝ) < 13)]
    norm_num

/-- Claim C1 (code bug): at any `x` in the top branch the density correction
of bb.rs returns `2*x + c_param`, not the claimed `2*ln(10)*x + c_param`,
because Rust's `10.0_f64.log10()` is the base-10 logarithm of 10, i.e. `1`.
Evaluated here at `x = 3 ≥ x1 = 2.8004` with the default parameters: the code
yields `9.5017` while the claimed formula yields `6*ln(10) + 3.5017`. -/
theorem densityCorrection_log10_bug :
    densityCorrection defaultParams 3 = 2 * 3 + 3.5017 ∧
    densityCorrection defaultParams 3 ≠ 2 * Real.log 10 * 3 + 3.5017 := by
  have hval : densityCorrection defaultParams 3 = 2 * 3 + 3.5017 := by
    rw [densityCorrection, if_pos (by norm_num [defaultParams] : defaultParams.x1 ≤ (3:ℝ))]
    rw [densityCorrectionTopBranch, Real.logb_self_eq_one (by norm_num : (1:ℝ) < 10)]
    norm_num [defaultParams]
  refine ⟨hval, ?_⟩
  rw [hval]
  intro h
  nlinarith [one_lt_log_ten]

/-- Claim C7 (code bug): at the boundary `x = x1` the middle-branch and
top-branch formulas of bb.rs agree (the `a*(x1-x1)^m_param` term vanishes for
the default `m_param = 3.4773 > 0`), and `densityCorrection` takes the top
branch there; but with the default parameters both reduce to
`2*x1 + c_param = 9.1025`, not to the claimed `2*ln(10)*x1 + c_param`,
because Rust's `10.0_f64.log10()` is `1`. -/
theorem densityCorrection_boundary_x1 :
    densityCorrectionMidBranch defaultParams defaultParams.x1
        = densityCorrectionTopBranch defaultParams defaultParams.x1 ∧
    densityCorrection defaultParams defaultParams.x1
        = densityCorrectionTopBranch defaultParams defaultParams.x1 ∧
    densityCorrectionTopBranch defaultParams defaultParams.x1 = 2 * 2.8004 + 3.5017 ∧
    densityCorrectionTopBranch defaultParams defaultParams.x1
        ≠ 2 * Real.log 10 * 2.8004 + 3.5017 := by
  have htop : densityCorrectionTopBranch defaultParams defaultParams.x1
      = 2 * 2.8004 + 3.5017 := by
    rw [densityCorrectionTopBranch, Real.logb_self_eq_one (by norm_num : (1:ℝ) < 10)]
    norm_num [defaultParams]
  refine ⟨?_, ?_, htop, ?_⟩
  · rw [densityCorrectionMidBranch, densityCorrectionTopBranch, sub_self,
      Real.zero_rpow (by norm_num [defaultParams] : defaultParams.m_param ≠ 0)]
    ring
  · rw [densityCorrection, if_pos le_rfl]
  · rw [htop]
    intro h
    nlinarith [one_lt_log_ten]

/-- Claim C2: the all-corrections stopping power is exactly the
no-corrections prefactor times the no-corrections bracket minus the density
term minus the shell term, term for term, for every energy and parameter
set (and every value of the ionization constant). -/
theorem allCorrections_bracket (Ival : ℝ) (p : DeltaParams) (energy_eV : ℝ) :
    deDx_noCorrections energy_eV = prefactor energy_eV * bracketNoCorrections energy_eV ∧
    deDx_allCorrections Ival p energy_eV =
      prefactor energy_eV *
        (bracketNoCorrections energy_eV
          - densityCorrection p (Real.logb 10 (betaGamma (betaOf energy_eV proton_mass)))
          - 2 * (shellCorrection Ival (betaGamma (betaOf energy_eV proton_mass))
              / WATER_ATOMIC_NUMBER)) := by
  refine ⟨rfl, ?_⟩
  simp only [deDx_allCorrections, prefactor, bracketNoCorrections]
  rw [show 2 * electron_mass_eV * betaOf energy_eV proton_mass ^ 2 / WATER_EXCITATION_ENERGY
      = 2 * electron_mass_eV * betaOf energy_eV proton_mass * betaOf energy_eV proton_mass
        / WATER_EXCITATION_ENERGY from by ring,
    show (1:ℝ) - betaOf energy_eV proton_mass ^ 2
      = 1 - betaOf energy_eV proton_mass * betaOf energy_eV proton_mass from by ring]
  ring

/-- Claim C5: the stopping powers of the `NoCorrection` and
`DensityCorrection` variants do not depend on the ionization constant value:
any two values of `I` give identical results for those two variants. -/
theorem stoppingPower_independent_of_I (I1 I2 : ℝ) (v : Variant) (p : DeltaParams)
    (energy_eV : ℝ) (h : v = Variant.NoCorrection ∨ v = Variant.DensityCorrection) :
    stoppingPower I1 v p energy_eV = stoppingPower I2 v p energy_eV := by
  rcases h with rfl | rfl <;> rfl

/-- Witness for C5, at `I = 0` versus `I = 1` for the `NoCorrection` variant
at the first sweep energy. -/
theorem stoppingPower_independent_of_I_witness :
    (Variant.NoCorrection = Variant.NoCorrection ∨
      Variant.NoCorrection = Variant.DensityCorrection) ∧
    stoppingPower 0 Variant.NoCorrection defaultParams (energy_eV_at 0)
      = stoppingPower 1 Variant.NoCorrection defaultParams (energy_eV_at 0) :=
  ⟨Or.inl rfl, stoppingPower_independent_of_I 0 1 Variant.NoCorrection defaultParams
    (energy_eV_at 0) (Or.inl rfl)⟩

/-- The push loop appends one pair per index, in index order. -/
lemma sweepLoop_eq (f : ℕ → ℝ × ℝ) (n : ℕ) (es ss : List ℝ) :
    sweepLoop f n es ss =
      (es ++ (List.range n).map fun i => (f i).1,
       ss ++ (List.range n).map fun i => (f i).2) := by
  induction n with
  | zero => simp [sweepLoop]
  | succ n ih =>
    rw [sweepLoop] at ih ⊢
    rw [List.range_succ, List.foldl_append, ih]
    simp

/-- Claim C4: the sweep energies are `E_i = (i+1)*10` MeV, strictly
increasing in `i`; every variant's curve records exactly these energies in
order; with `n = 1000` points the first energy is `10.0` and the last
(index 999) is `10000.0`. -/
theorem sweep_energy_grid :
    (∀ i : ℕ, energy_MeV_at i = ((i : ℝ) + 1) * 10) ∧
    StrictMono energy_MeV_at ∧
    energy_MeV_at 0 = 10 ∧ energy_MeV_at 999 = 10000 ∧
    (∀ n es ss, (bethe_bloch_no_corrections n es ss).1
        = es ++ (List.range n).map energy_MeV_at) ∧
    (∀ n es ss, (bethe_bloch_layer_corrections n es ss).1
        = es ++ (List.range n).map energy_MeV_at) ∧
    (∀ n es ss vars r, bethe_bloch_density_corrections n es ss vars = some r →
        r.1 = es ++ (List.range n).map energy_MeV_at) ∧
    (∀ n es ss vars r, bethe_bloch_all_corrections n es ss vars = some r →
        r.1 = es ++ (List.range n).map energy_MeV_at) ∧
    (bethe_bloch_no_corrections 1000 [] []).1[0]? = some 10 ∧
    (bethe_bloch_no_corrections 1000 [] []).1[999]? = some 10000 := by
  have h1 : ∀ i : ℕ, energy_MeV_at i = ((i : ℝ) + 1) * 10 := by
    intro i
    rw [energy_MeV_at, energy_eV_at, PROTON_ENERGY_MeV_I]
    norm_num
  have hnc : ∀ (n : ℕ) (es ss : List ℝ), (bethe_bloch_no_corrections n es ss).1
      = es ++ (List.range n).map energy_MeV_at := by
    intro n es ss
    rw [bethe_bloch_no_corrections, sweepLoop_eq]
  have hlayer : ∀ (n : ℕ) (es ss : List ℝ), (bethe_bloch_layer_corrections n es ss).1
      = es ++ (List.range n).map energy_MeV_at := by
    intro n es ss
    rw [bethe_bloch_layer_corrections, sweepLoop_eq]
  have hat0 : energy_MeV_at 0 = 10 := by rw [h1]; norm_num
  have hat999 : energy_MeV_at 999 = 10000 := by rw [h1]; norm_num
  refine ⟨h1, ?_, hat0, hat999, hnc, hlayer, ?_, ?_, ?_, ?_⟩
  · intro i j hij
    rw [h1, h1]
    have : (i : ℝ) < (j : ℝ) := by exact_mod_cast hij
    linarith
  · intro n es ss vars r h
    rw [bethe_bloch_density_corrections] at h
    cases h0 : getParams vars with
    | none => rw [h0] at h; simp at h
    | some p =>
      rw [h0] at h
      simp only [Option.map_some', Option.some_inj] at h
      rw [← h, sweepLoop_eq]
  · intro n es ss vars r h
    rw [bethe_bloch_all_corrections] at h
    cases h0 : getParams vars with
    | none => rw [h0] at h; simp at h
    | some p =>
      rw [h0] at h
      simp only [Option.map_some', Option.some_inj] at h
      rw [← h, sweepLoop_eq]
  · rw [hnc 1000 [] []]
    simp only [List.nil_append, List.getElem?_map, List.getElem?_range (by norm_num : 0 < 1000)]
    rw [Option.map_some', hat0]
  · rw [hnc 1000 [] []]
    simp only [List.nil_append, List.getElem?_map,
      List.getElem?_range (by norm_num : 999 < 1000)]
    rw [Option.map_some', hat999]

/-- Witness for C4: a zero-length density-corrections sweep on a pre-filled
vector, and strict monotonicity at indices 3 < 7. -/
theorem sweep_energy_grid_witness :
    bethe_bloch_density_corrections 0 [5] [6] (fun _ => some 0) = some ([5], [6]) ∧
    ([5] : List ℝ) = [5] ++ (List.range 0).map energy_MeV_at ∧
    energy_MeV_at 3 < energy_MeV_at 7 :=
  have heq : bethe_bloch_density_corrections 0 [5] [6] (fun _ => some 0) = some ([5], [6]) :=
    rfl
  ⟨heq, by
    have h := sweep_energy_grid.2.2.2.2.2.2.1 0 [5] [6] (fun _ => some 0) ([5], [6]) heq
    simp at h
    simp [h],
   sweep_energy_grid.2.1 (by norm_num : (3:ℕ) < 7)⟩

/-! ### Parameter resolution (main.rs lines 27-62 and 251-268) -/

def a_default : ℝ := 0.09116

def x0_default : ℝ := 0.24

def x1_default : ℝ := 2.8004

def c_default : ℝ := 3.5017

def m_default : ℝ := 3.4773

/-- CLI parameter resolution in the `args.len() >= 6` branch (main.rs lines
42-47): `a = args[1].parse().unwrap_or(a_default)` and so on, one field per
positional argument.  The outcome of each `str::parse::<f64>` call is
abstracted as an `Option ℝ` (`none` = parse failure). -/
def resolveArgs (r1 r2 r3 r4 r5 : Option ℝ) : DeltaParams :=
  { a := r1.getD a_default, x0 := r2.getD x0_default, x1 := r3.getD x1_default,
    m_param := r5.getD m_default, c_param := r4.getD c_default }

/-- The interactive `prompt` helper (main.rs lines 251-268): the default when
the trimmed input line is empty, otherwise `trimmed.parse().unwrap_or(default)`
with the parse outcome abstracted as an `Option ℝ`. -/
def promptResolve (trimmedEmpty : Bool) (parsed : Option ℝ) (d : ℝ) : ℝ :=
  if trimmedEmpty then d else parsed.getD d

/-- Claim C8: parameter resolution is per-field fault-tolerant: with five
command-line arguments supplied, each field that fails to parse falls back to
its documented default while successfully parsed fields keep their parsed
values, independently of the other fields; the interactive prompt applies the
same per-field fallback. -/
theorem paramResolution_per_field (r1 r2 r3 r4 r5 : Option ℝ) :
    (r1 = none → (resolveArgs r1 r2 r3 r4 r5).a = 0.09116) ∧
    (∀ v, r1 = some v → (resolveArgs r1 r2 r3 r4 r5).a = v) ∧
    (r2 = none → (resolveArgs r1 r2 r3 r4 r5).x0 = 0.24) ∧
    (∀ v, r2 = some v → (resolveArgs r1 r2 r3 r4 r5).x0 = v) ∧
    (r3 = none → (resolveArgs r1 r2 r3 r4 r5).x1 = 2.8004) ∧
    (∀ v, r3 = some v → (resolveArgs r1 r2 r3 r4 r5).x1 = v) ∧
    (r4 = none → (resolveArgs r1 r2 r3 r4 r5).c_param = 3.5017) ∧
    (∀ v, r4 = some v → (resolveArgs r1 r2 r3 r4 r5).c_param = v) ∧
    (r5 = none → (resolveArgs r1 r2 r3 r4 r5).m_param = 3.4773) ∧
    (∀ v, r5 = some v → (resolveArgs r1 r2 r3 r4 r5).m_param = v) ∧
    (∀ (b : Bool) (par : Option ℝ) (d : ℝ),
      promptResolve true par d = d ∧
      (par = none → promptResolve b par d = d) ∧
      (∀ v, par = some v → promptResolve false par d = v)) := by
  refine ⟨?_, ?_, ?_, ?_, ?_, ?_, ?_, ?_, ?_, ?_, ?_⟩
  · rintro rfl; rfl
  · rintro v rfl; rfl
  · rintro rfl; rfl
  · rintro v rfl; rfl
  · rintro rfl; rfl
  · rintro v rfl; rfl
  · rintro rfl; rfl
  · rintro v rfl; rfl
  · rintro rfl; rfl
  · rintro v rfl; rfl
  · intro b par d
    refine ⟨rfl, ?_, ?_⟩
    · rintro rfl; cases b <;> rfl
    · rintro v rfl; rfl

/-- Witness for C8: the second and fourth arguments parse (to 5 and 7), the
others fail; prompt input that parses to 2 is kept, a failing one falls back. -/
theorem paramResolution_per_field_witness :
    (resolveArgs none (some 5) none (some 7) none).a = 0.09116 ∧
    (resolveArgs none (some 5) none (some 7) none).x0 = 5 ∧
    (resolveArgs none (some 5) none (some 7) none).x1 = 2.8004 ∧
    (resolveArgs none (some 5) none (some 7) none).c_param = 7 ∧
    (resolveArgs none (some 5) none (some 7) none).m_param = 3.4773 ∧
    promptResolve false none 1 = 1 ∧ promptResolve false (some 2) 1 = 2 :=
  ⟨(paramResolution_per_field none (some 5) none (some 7) none).1 rfl,
   (paramResolution_per_field none (some 5) none (some 7) none).2.2.2.1 5 rfl,
   (paramResolution_per_field none (some 5) none (some 7) none).2.2.2.2.1 rfl,
   (paramResolution_per_field none (some 5) none (some 7) none).2.2.2.2.2.2.2.1 7 rfl,
   (paramResolution_per_field none (some 5) none (some 7) none).2.2.2.2.2.2.2.2.1 rfl,
   ((paramResolution_per_field none (some 5) none (some 7) none).2.2.2.2.2.2.2.2.2.2
     false none 1).2.1 rfl,
   ((paramResolution_per_field none (some 5) none (some 7) none).2.2.2.2.2.2.2.2.2.2
     false (some 2) 1).2.2 2 rfl⟩

/-! ### Frame behaviour of the curve functions -/

/-- Frame properties of one curve call with `n` points on pre-existing
vectors `es`, `ss`: exactly `n` entries are appended to each vector, the
pre-existing prefixes are unchanged and in place, and equal lengths are
preserved. -/
def framePres (n : ℕ) (es ss : List ℝ) (r : List ℝ × List ℝ) : Prop :=
  r.1.length = es.length + n ∧ r.2.length = ss.length + n ∧
  r.1.take es.length = es ∧ r.2.take ss.length = ss ∧
  (es.length = ss.length → r.1.length = r.2.length)

lemma sweepLoop_framePres (f : ℕ → ℝ × ℝ) (n : ℕ) (es ss : List ℝ) :
    framePres n es ss (sweepLoop f n es ss) := by
  rw [sweepLoop_eq, framePres]
  refine ⟨by simp, by simp, ?_, ?_, fun h => by simp [h]⟩
  · exact List.take_left es _
  · exact List.take_left ss _

/-- Claim C9: every curve function appends exactly `n` new entries to the
caller-supplied energy and stopping-power vectors, leaves the elements
present before the call unchanged and in place, and preserves equality of
the two lengths (for the map-taking functions, whenever they return at
all). -/
theorem curves_frame (n : ℕ) (es ss : List ℝ) :
    framePres n es ss (bethe_bloch_no_corrections n es ss) ∧
    framePres n es ss (bethe_bloch_layer_corrections n es ss) ∧
    (∀ vars r, bethe_bloch_density_corrections n es ss vars = some r →
        framePres n es ss r) ∧
    (∀ vars r, bethe_bloch_all_corrections n es ss vars = some r →
        framePres n es ss r) := by
  refine ⟨sweepLoop_framePres _ n es ss, sweepLoop_framePres _ n es ss, ?_, ?_⟩
  · intro vars r h
    rw [bethe_bloch_density_corrections] at h
    cases h0 : getParams vars with
    | none => rw [h0] at h; simp at h
    | some p =>
      rw [h0] at h
      simp only [Option.map_some', Option.some_inj] at h
      rw [← h]
      exact sweepLoop_framePres _ n es ss
  · intro vars r h
    rw [bethe_bloch_all_corrections] at h
    cases h0 : getParams vars with
    | none => rw [h0] at h; simp at h
    | some p =>
      rw [h0] at h
      simp only [Option.map_some', Option.some_inj] at h
      rw [← h]
      exact sweepLoop_framePres _ n es ss

/-- Witness for C9, with `n = 0` points, one pre-existing element in each
vector, and a map binding every key to 0. -/
theorem curves_frame_witness :
    bethe_bloch_density_corrections 0 [0] [0] (fun _ => some 0) = some ([0], [0]) ∧
    framePres 0 [0] [0] ([0], [0]) ∧
    framePres 0 [0] [0] (bethe_bloch_no_corrections 0 [0] [0]) ∧
    (bethe_bloch_no_corrections 0 [0] [0]).1.length
      = (bethe_bloch_no_corrections 0 [0] [0]).2.length :=
  have heq : bethe_bloch_density_corrections 0 [0] [0] (fun _ => some 0) = some ([0], [0]) :=
    rfl
  ⟨heq, (curves_frame 0 [0] [0]).2.2.1 (fun _ => some 0) ([0], [0]) heq,
   (curves_frame 0 [0] [0]).1, ((curves_frame 0 [0] [0]).1).2.2.2.2 rfl⟩

/-! ### Map-key lookups -/

lemma getParams_isSome_iff (vars : String → Option ℝ) :
    (getParams vars).isSome ↔
      ((vars key_a).isSome ∧ (vars key_x0).isSome ∧ (vars key_x1).isSome ∧
       (vars key_m_param).isSome ∧ (vars key_c_param).isSome) := by
  rw [getParams]
  cases vars key_a <;> cases vars key_x0 <;> cases vars key_x1 <;>
    cases vars key_m_param <;> cases vars key_c_param <;> simp

/-- Claim C10: the density- and all-corrections functions unwrap the five map
keys "a", "x0", "x1", "m_param", "c_param"; when all five are present the
panic branch is unreachable (a result is returned), and when any is absent
the function panics (returns `none`) before producing any output point. -/
theorem lookup_unwrap_keys (vars : String → Option ℝ) (n : ℕ) (es ss : List ℝ) :
    (((vars key_a).isSome ∧ (vars key_x0).isSome ∧ (vars key_x1).isSome ∧
        (vars key_m_param).isSome ∧ (vars key_c_param).isSome) →
      (bethe_bloch_density_corrections n es ss vars).isSome ∧
      (bethe_bloch_all_corrections n es ss vars).isSome) ∧
    ((vars key_a = none ∨ vars key_x0 = none ∨ vars key_x1 = none ∨
        vars key_m_param = none ∨ vars key_c_param = none) →
      bethe_bloch_density_corrections n es ss vars = none ∧
      bethe_bloch_all_corrections n es ss vars = none) := by
  constructor
  · intro h
    obtain ⟨p, hp⟩ := Option.isSome_iff_exists.mp ((getParams_isSome_iff vars).mpr h)
    constructor
    · rw [bethe_bloch_density_corrections, hp]; rfl
    · rw [bethe_bloch_all_corrections, hp]; rfl
  · intro h
    have hg : getParams vars = none := by
      rw [← Option.not_isSome_iff_eq_none, getParams_isSome_iff]
      rcases h with h | h | h | h | h <;> simp [h]
    rw [bethe_bloch_density_corrections, bethe_bloch_all_corrections, hg]
    exact ⟨rfl, rfl⟩

/-- Witness for C10: a map binding every key versus the empty map. -/
theorem lookup_unwrap_keys_witness :
    ((bethe_bloch_density_corrections 0 [] [] (fun _ => some 0)).isSome ∧
     (bethe_bloch_all_corrections 0 [] [] (fun _ => some 0)).isSome) ∧
    (bethe_bloch_density_corrections 0 [] [] (fun _ => none) = none ∧
     bethe_bloch_all_corrections 0 [] [] (fun _ => none) = none) :=
  ⟨(lookup_unwrap_keys (fun _ => some 0) 0 [] []).1 ⟨rfl, rfl, rfl, rfl, rfl⟩,
   (lookup_unwrap_keys (fun _ => none) 0 [] []).2 (Or.inl rfl)⟩

end BetheBloch
